import Mathlib

/-!
Verification development for the UWB MQTT publisher.

The Python source is shallowly embedded: machine floats are modelled as
exact rationals (every comparison proved here is at least 1.6e-3 away from
the decision boundary, far beyond double rounding error), byte strings as
`List Nat`, Python dict fields as `Option`-valued record fields where a
missing key matters, and Python truthiness of a numeric field by comparison
with zero.  Wall-clock time is an explicit rational parameter.
-/

namespace UwbMqttPublisher

/-- Python truthiness of an optional numeric dict entry: absent or zero is
falsy (`loc.get("latitude")`-style tests in the source). -/
def truthyQ : Option ℚ → Bool
  | some v => decide (v ≠ 0)
  | none => false

/-! ## uwb_constants.py -/

/-- TWR-to-metres conversion factor (`TWR_TO_METERS = 0.004690384`),
exact as a rational. -/
def TWR_TO_METERS : ℚ := 0.004690384

/-- Maximum valid distance in metres (`MAX_DISTANCE_METERS = 300.0`). -/
def MAX_DISTANCE_METERS : ℚ := 300

/-- Maximum parsing errors before device reset (`MAX_PARSING_ERRORS = 3`). -/
def MAX_PARSING_ERRORS : ℕ := 3

/-! ## uwb_packet_parser.py -/

/-- `twr_value_ok(value)`: the value is strictly positive and converts to
strictly less than the maximum distance. -/
def twr_value_ok (value : ℕ) : Bool :=
  decide (value > 0) && decide (TWR_TO_METERS * value < MAX_DISTANCE_METERS)

/-- Little-endian u16 decode at `idx`, as `struct.unpack('<H', payload[idx:idx+2])`
guarded by the source's `if idx + 2 > len(final_payload): raise`. -/
def read_u16 (payload : List ℕ) (idx : ℕ) : Option ℕ :=
  if idx + 2 ≤ payload.length then
    some (payload.getD idx 0 + 256 * payload.getD (idx + 1) 0)
  else none

/-- Little-endian u16 encode, inverse of `read_u16` for values below 2^16. -/
def encode_u16 (v : ℕ) : List ℕ := [v % 256, v / 256]

/-- An emitted edge: two node ids and a distance in metres. -/
abbrev ParsedEdge := ℕ × ℕ × ℚ

/-- All cross pairs `(g[i], h[j])` in the source's loop order
(outer index slowest). -/
def cross_pairs (g h : List ℕ) : List (ℕ × ℕ) :=
  g.flatMap (fun a => h.map (fun b => (a, b)))

/-- Upper-triangular internal pairs `(g[i], g[j])` for `j > i`, in the
source's loop order. -/
def tri_pairs : List ℕ → List (ℕ × ℕ)
  | [] => []
  | a :: rest => rest.map (fun b => (a, b)) ++ tri_pairs rest

/-- Running state of the measurement loop in `parse_final_payload`:
payload cursor and accumulated results. -/
structure ParseSt where
  idx : ℕ
  results : List ParsedEdge
deriving DecidableEq

/-- One sequential pass over the node pairs of a block list: each pair
consumes one little-endian u16 from the payload; a value passing
`twr_value_ok` appends an edge, a failing one is silently dropped, and a
truncated payload raises (`ValueError`). -/
def parse_pairs (payload : List ℕ) : List (ℕ × ℕ) → ParseSt → Except String ParseSt
  | [], st => .ok st
  | (a, b) :: rest, st =>
    match read_u16 payload st.idx with
    | none => .error "Insufficient payload data"
    | some value =>
      parse_pairs payload rest
        ⟨st.idx + 2,
          if twr_value_ok value then st.results ++ [(a, b, TWR_TO_METERS * value)]
          else st.results⟩

/-- Outcome of `parse_final_payload` together with the caller's
parsing-error counter (`handle_parsing_error` in mqtt-live-publisher.py
increments the counter on every invocation of the error handler and
reports reset once the counter reaches `MAX_PARSING_ERRORS`). -/
structure ParseOutcome where
  results : List ParsedEdge
  errorCount : ℕ
  resetRequired : Bool
deriving DecidableEq

/-- `parse_final_payload(assignments, final_payload, mode, error_handler)`
with the error handler instantiated to `handle_parsing_error`'s counter,
threaded explicitly.  An empty payload returns early with no handler call;
an invalid assignments structure (not three groups, or an empty group)
invokes the handler — incrementing the counter — and returns no edges,
ignoring the handler's reset verdict; a truncation inside the measurement
blocks invokes the handler and signals reset when the threshold is
reached. -/
def parse_final_payload (assignments : List (List ℕ)) (final_payload : List ℕ)
    (mode : ℕ) (errorCount : ℕ) : ParseOutcome :=
  if final_payload.length = 0 then ⟨[], errorCount, false⟩
  else if assignments.length ≠ 3 then ⟨[], errorCount + 1, false⟩
  else if assignments.any (fun group => group.length = 0) then ⟨[], errorCount + 1, false⟩
  else
    let g1 := assignments.getD 0 []
    let g2 := assignments.getD 1 []
    let g3 := assignments.getD 2 []
    let pairs :=
      cross_pairs g1 g2 ++ cross_pairs g1 g3 ++ cross_pairs g2 g3 ++
      (if mode.testBit 0 then tri_pairs g1 else []) ++
      (if mode.testBit 1 then tri_pairs g2 else [])
    match parse_pairs final_payload pairs ⟨0, []⟩ with
    | .ok st => ⟨st.results, errorCount, false⟩
    | .error _ => ⟨[], errorCount + 1, decide (errorCount + 1 ≥ MAX_PARSING_ERRORS)⟩

/-! ## lora_tag_cache.py -/

/-- The `location` sub-dict of a cached record, when present and non-empty
(the ingest path stores an empty dict when no location was found, which is
falsy like an absent key).  Each field is an `Option`: `none` for an
absent or JSON-null entry. -/
structure LoraLocation where
  latitude : Option ℚ
  longitude : Option ℚ
  altitude : Option ℚ
  accuracy : Option ℚ
  source : Option String
deriving DecidableEq

/-- The `decoded_payload` sub-dict, when present and non-empty.  Only the
fields consulted by the converter are modelled; `some` means the key is
present. -/
structure DecodedPayload where
  battery : Option ℚ
  temperature : Option ℚ
  humidity : Option ℚ
  triage : Option ℤ
  triageStatus : Option ℤ
deriving DecidableEq

/-- A cached LoRa record (`cached_data` built by `_on_message`).
`timestamp` is `none` when the `"timestamp"` key is absent (the ingest
path always stamps `time.time()`, so records produced by the cache carry
`some`).  `receivedAtTs` models the `received_at` ISO string: `some t`
when the string is present, truthy and parseable to the Unix time `t`;
`none` covers an absent, empty or unparseable string (all of which leave
the converter's timestamp untouched). -/
structure LoraData where
  timestamp : Option ℚ
  receivedAtTs : Option ℚ
  location : Option LoraLocation
  decodedPayload : Option DecodedPayload
deriving DecidableEq

/-- The GPS-presence test shared by `_is_data_valid` (line 483-485) and the
converter (lines 179-181): the `location` dict is truthy and both
`latitude` and `longitude` are truthy — coordinates equal to zero count as
absent. -/
def has_gps_coords (d : LoraData) : Bool :=
  match d.location with
  | some loc => truthyQ loc.latitude && truthyQ loc.longitude
  | none => false

/-- `LoraTagDataCache._is_data_valid(data, max_age_seconds,
check_gps_staleness)` at wall-clock `now`, with the configured TTLs as
explicit arguments.  A record with no `"timestamp"` key is invalid; a
GPS-bearing record older than the GPS TTL is invalid; otherwise the
record is valid iff its age is within the sensor TTL (`max_age_seconds`
overrides both TTLs when given). -/
def is_data_valid (gps_ttl_seconds sensor_ttl_seconds : ℚ) (data : LoraData)
    (max_age_seconds : Option ℚ) (check_gps_staleness : Bool) (now : ℚ) : Bool :=
  match data.timestamp with
  | none => false
  | some ts =>
    let data_age := now - ts
    if check_gps_staleness && has_gps_coords data then
      let gps_max_age := max_age_seconds.getD gps_ttl_seconds
      if data_age > gps_max_age then false
      else decide (data_age ≤ max_age_seconds.getD sensor_ttl_seconds)
    else decide (data_age ≤ max_age_seconds.getD sensor_ttl_seconds)

/-- `LoraTagDataCache.get_by_uwb_id(uwb_id, max_age_seconds,
check_gps_staleness)`: uppercase the id, look it up in the UWB-keyed
index, and filter by `_is_data_valid` — a stale record yields the
not-found sentinel `none`. -/
def get_by_uwb_id (gps_ttl_seconds sensor_ttl_seconds : ℚ)
    (uwb_cache : List (String × LoraData)) (uwb_id : String)
    (max_age_seconds : Option ℚ) (check_gps_staleness : Bool) (now : ℚ) :
    Option LoraData :=
  match (uwb_cache.find? (fun p => p.1 = uwb_id.toUpper)).map (·.2) with
  | none => none
  | some data =>
    if is_data_valid gps_ttl_seconds sensor_ttl_seconds data
        max_age_seconds check_gps_staleness now then some data
    else none

/-! ## uwb_network_converter.py

`UwbNetworkConverter.convert_edges_to_network` is modelled in the
configuration the claims are about: a loaded anchor map, a LoRa cache
whose `get_by_uwb_id` snapshot is abstracted as `cg : String → Option
LoraData` (the converter calls it with the default `check_gps_staleness`
semantics for anchors and non-anchors alike), and `data_validator = None`.
The telemetry copied verbatim into extra node fields that no claim
consults (humidity, `lora_*` passthrough keys, frame counters, gateway
RSSI/SNR aggregation) is omitted; every field any claim touches is
modelled.  Input edges are the well-formed triples `(end0, end1,
distance)` — the claims quantify over exactly those. -/

/-- An edge object `{"end0": ..., "end1": ..., "distance": ...}`. -/
structure UwbEdgeObj where
  end0 : String
  end1 : String
  distance : ℚ
deriving DecidableEq

/-- A node of the materialised network (the `uwb` dict built per id). -/
structure UwbNode where
  id : String
  triageStatus : ℤ
  latLonAlt : ℚ × ℚ × ℚ
  positionKnown : Bool
  lastPositionUpdateTime : ℚ
  edges : List UwbEdgeObj
  positionAccuracy : ℚ
  positionSource : Option String
  battery : Option ℚ
  temperature : Option ℚ
deriving DecidableEq

/-- The published network document. -/
structure Network where
  uwbs : List UwbNode
deriving DecidableEq

/-- The anchor map: id to `[lat, lon, alt]`. -/
abbrev AnchorMap := List (String × (ℚ × ℚ × ℚ))

def anchorLookup (anchor_map : AnchorMap) (uwb_id : String) : Option (ℚ × ℚ × ℚ) :=
  (anchor_map.find? (fun p => p.1 = uwb_id)).map (·.2)

/-- The converter's guard for taking a position from LoRa data (lines
179-181): the record exists, its `location` is truthy and both
coordinates are truthy. -/
def lora_gps_used (lora_data : Option LoraData) : Bool :=
  match lora_data with
  | some d => has_gps_coords d
  | none => false

/-- The `[lat, lon, alt]` taken from the record's location (lines
182-184, `loc.get(key, 0.0)`). -/
def lora_lat_lon_alt (lora_data : Option LoraData) : ℚ × ℚ × ℚ :=
  match lora_data with
  | some d =>
    match d.location with
    | some loc => (loc.latitude.getD 0, loc.longitude.getD 0, loc.altitude.getD 0)
    | none => (0, 0, 0)
  | none => (0, 0, 0)

/-- Lines 204-213: after taking a position from LoRa data the shared
`timestamp` variable is overwritten with the record's truthy
`"timestamp"`, else with a parseable `received_at`, else left as it
was. -/
def lora_timestamp_update (lora_data : Option LoraData) (timestamp : ℚ) : ℚ :=
  match lora_data with
  | some d =>
    if truthyQ d.timestamp then d.timestamp.getD 0
    else
      match d.receivedAtTs with
      | some t => t
      | none => timestamp
  | none => timestamp

/-- Python's `a or b` on optional integers (`decoded.get("triage") or
decoded.get("triageStatus")`): the first operand wins iff truthy. -/
def pyOrInt (a b : Option ℤ) : Option ℤ :=
  match a with
  | some x => if x ≠ 0 then some x else b
  | none => b

/-- Lines 240-308: copy LoRa metadata onto the node — battery,
temperature and triage from the decoded payload, and the location's
accuracy and source (an anchor's `"anchor_config"` source is suffixed
with `,lora_<source>` instead of being replaced). -/
def applyLoraMetadata (uwb : UwbNode) (d : LoraData) : UwbNode :=
  { uwb with
    battery :=
      match d.decodedPayload with
      | some decoded => decoded.battery
      | none => uwb.battery
    temperature :=
      match d.decodedPayload with
      | some decoded => decoded.temperature
      | none => uwb.temperature
    triageStatus :=
      match d.decodedPayload with
      | some decoded => (pyOrInt decoded.triage decoded.triageStatus).getD uwb.triageStatus
      | none => uwb.triageStatus
    positionAccuracy :=
      match d.location.bind (·.accuracy) with
      | some a => a
      | none => uwb.positionAccuracy
    positionSource :=
      match d.location with
      | some loc =>
        (match loc.source with
         | some s =>
           if s ≠ "" then
             (match uwb.positionSource with
              | none => some s
              | some ps => some (ps ++ ",lora_" ++ s))
           else uwb.positionSource
         | none => uwb.positionSource)
      | none => uwb.positionSource }

/-- The per-id body of the conversion loop (lines 150-310), returning the
built node together with the value the shared `timestamp` variable holds
after this iteration. -/
def buildNode (anchor_map : AnchorMap) (cg : String → Option LoraData)
    (uwb_id : String) (timestamp : ℚ) : UwbNode × ℚ :=
  let is_anchor := (anchorLookup anchor_map uwb_id).isSome
  let lora_data := cg uwb_id
  let use_gps := !is_anchor && lora_gps_used lora_data
  let position_known := is_anchor || use_gps
  let lat_lon_alt :=
    if is_anchor then (anchorLookup anchor_map uwb_id).getD (0, 0, 0)
    else if use_gps then lora_lat_lon_alt lora_data
    else (0, 0, 0)
  let timestamp2 := if use_gps then lora_timestamp_update lora_data timestamp else timestamp
  let base : UwbNode :=
    { id := uwb_id
      triageStatus := 0
      latLonAlt := lat_lon_alt
      positionKnown := position_known
      lastPositionUpdateTime := timestamp2
      edges := []
      positionAccuracy := 0
      positionSource := if is_anchor then some "anchor_config" else none
      battery := none
      temperature := none }
  match lora_data with
  | none => (base, timestamp2)
  | some d => (applyLoraMetadata base d, timestamp2)

/-- The loop over the sorted ids, threading the shared `timestamp`
variable from one iteration to the next. -/
def buildNodes (anchor_map : AnchorMap) (cg : String → Option LoraData) :
    List String → ℚ → List UwbNode
  | [], _ => []
  | uwb_id :: rest, timestamp =>
    let p := buildNode anchor_map cg uwb_id timestamp
    p.1 :: buildNodes anchor_map cg rest p.2

/-- `sorted(set of endpoints)` — lines 139-148. -/
def sorted_uwb_ids (edge_list : List (String × String × ℚ)) : List String :=
  ((edge_list.flatMap (fun e => [e.1, e.2.1])).dedup).mergeSort (fun a b => a ≤ b)

/-- The edge objects appended to the node with this id by the
bidirectional edge population (lines 316-334): each matching endpoint
appends the edge once, in input order. -/
def edges_for (uwb_id : String) : List (String × String × ℚ) → List UwbEdgeObj
  | [] => []
  | e :: rest =>
    let edge_obj : UwbEdgeObj := ⟨e.1, e.2.1, e.2.2⟩
    ((if e.1 = uwb_id then [edge_obj] else []) ++
      (if e.2.1 = uwb_id then [edge_obj] else [])) ++ edges_for uwb_id rest

/-- `convert_edges_to_network(edge_list, timestamp)`. -/
def convert_edges_to_network (anchor_map : AnchorMap)
    (cg : String → Option LoraData) (edge_list : List (String × String × ℚ))
    (timestamp : ℚ) : Network :=
  let uwbs := buildNodes anchor_map cg (sorted_uwb_ids edge_list) timestamp
  ⟨uwbs.map (fun u => { u with edges := edges_for u.id edge_list })⟩

/-- A node takes its position from the cache iff it is not an anchor and
the LoRa GPS guard holds for its record. -/
def takes_gps (anchor_map : AnchorMap) (cg : String → Option LoraData)
    (uwb_id : String) : Bool :=
  !(anchorLookup anchor_map uwb_id).isSome && lora_gps_used (cg uwb_id)

/-- A node's iteration overwrites the shared `timestamp` variable iff it
takes its position from the cache and its record offers a truthy
`"timestamp"` or a parseable `received_at`. -/
def overwrites_ts (anchor_map : AnchorMap) (cg : String → Option LoraData)
    (uwb_id : String) : Bool :=
  takes_gps anchor_map cg uwb_id &&
    (match cg uwb_id with
     | some d => truthyQ d.timestamp || d.receivedAtTs.isSome
     | none => false)

/-- The value of the shared `timestamp` variable after the loop has
processed the given ids. -/
def ts_after (anchor_map : AnchorMap) (cg : String → Option LoraData)
    (ids : List String) (timestamp : ℚ) : ℚ :=
  ids.foldl (fun t uwb_id => (buildNode anchor_map cg uwb_id t).2) timestamp

/-! ## uwb_error_recovery.py -/

/-- Backoff parameters of `ErrorRecovery` (defaults 1 s, 2.0, 60 s). -/
structure BackoffParams where
  initial_backoff_seconds : ℚ := 1
  backoff_multiplier : ℚ := 2
  max_backoff_seconds : ℚ := 60
deriving DecidableEq

/-- The reset-tracking state of `ErrorRecovery`. -/
structure ErrorRecoveryState where
  reset_count : ℕ
  last_reset_time : Option ℚ
deriving DecidableEq

/-- The current backoff delay:
`min(initial_backoff * multiplier ** reset_count, max_backoff)`. -/
def backoff_delay (p : BackoffParams) (reset_count : ℕ) : ℚ :=
  min (p.initial_backoff_seconds * p.backoff_multiplier ^ reset_count)
    p.max_backoff_seconds

/-- `ErrorRecovery.should_reset_with_backoff()` at wall-clock `now`:
immediately true when no reset has been recorded, otherwise false only
while inside the backoff window. -/
def should_reset_with_backoff (p : BackoffParams) (st : ErrorRecoveryState)
    (now : ℚ) : Bool :=
  match st.last_reset_time with
  | none => true
  | some t =>
    let time_since_reset := now - t
    if time_since_reset < backoff_delay p st.reset_count then false else true

/-- `ErrorRecovery.record_reset()` at wall-clock `now`. -/
def record_reset (st : ErrorRecoveryState) (now : ℚ) : ErrorRecoveryState :=
  ⟨st.reset_count + 1, some now⟩

/-! ## uwb_health_monitor.py -/

/-- The health metrics consulted by `get_health_status` (the publish
counters feed only the reported MQTT success rate, not the status). -/
structure HealthMetrics where
  start_time : ℚ
  parsing_errors : ℕ
  successful_packets : ℕ
  failed_packets : ℕ
  mqtt_publishes : ℕ
  mqtt_failures : ℕ
  last_uwb_data_time : Option ℚ
  last_mqtt_connected_time : Option ℚ
  consecutive_errors : ℕ
deriving DecidableEq

/-- Packet success rate (lines 125-129): 1.0 when no packets yet. -/
def success_rate_of (m : HealthMetrics) : ℚ :=
  if m.successful_packets + m.failed_packets > 0 then
    (m.successful_packets : ℚ) / ((m.successful_packets : ℚ) + (m.failed_packets : ℚ))
  else 1

/-- Lines 147-160: the MQTT connection is OK when connected now, or when
last connected within the connection timeout; when never connected it is
OK only inside the 30 s startup grace period. -/
def mqtt_connection_ok_check (mqtt_connected_now : Bool)
    (last_mqtt_connected_time : Option ℚ) (start_time : ℚ)
    (mqtt_connection_timeout_seconds now : ℚ) : Bool :=
  if mqtt_connected_now then true
  else
    match last_mqtt_connected_time with
    | some t => if now - t > mqtt_connection_timeout_seconds then false else true
    | none => if now - start_time > 30 then false else true

/-- Lines 162-168: UWB data is recent when none was ever seen or the last
datum is within the UWB-data timeout. -/
def uwb_data_recent_check (last_uwb_data_time : Option ℚ)
    (uwb_data_timeout_seconds now : ℚ) : Bool :=
  match last_uwb_data_time with
  | some t => if now - t > uwb_data_timeout_seconds then false else true
  | none => true

/-- The `status` field computed by `HealthMonitor.get_health_status`
(lines 170-189): the if/elif chain, with the `not serial_connected`
check first. -/
def get_health_status (serial_connected mqtt_connected_now : Bool)
    (m : HealthMetrics) (uwb_data_timeout_seconds mqtt_connection_timeout_seconds : ℚ)
    (now : ℚ) : String :=
  let success_rate := success_rate_of m
  let mqtt_connection_ok := mqtt_connection_ok_check mqtt_connected_now
    m.last_mqtt_connected_time m.start_time mqtt_connection_timeout_seconds now
  let uwb_data_recent := uwb_data_recent_check m.last_uwb_data_time
    uwb_data_timeout_seconds now
  if serial_connected = false then "degraded"
  else if mqtt_connection_ok = false then "unhealthy"
  else if uwb_data_recent = false then "unhealthy"
  else if 5 ≤ m.consecutive_errors then "unhealthy"
  else if 0 < m.parsing_errors ∧ success_rate < 0.8 then "unhealthy"
  else if success_rate < 0.8 then "degraded"
  else if 10 ≤ m.parsing_errors then "unhealthy"
  else "healthy"

/-! ## uwb_mqtt_client.py -/

/-- The publisher state relevant to rate limiting: `last_publish_time`
(0 at startup). -/
structure PublishState where
  last_publish_time : ℚ
deriving DecidableEq

/-- One call to `UwbMqttClient.publish` (equivalently `publish_to_mqtt`
in mqtt-live-publisher.py), described by its wall-clock time, the rate
limit read under the lock at that moment, the broker connection state,
and whether the library reports `MQTT_ERR_SUCCESS`.  The claims concern
the configuration with a live client (`client` set, MQTT not
disabled). -/
structure PublishAttempt where
  now : ℚ
  rate_limit : ℚ
  connected : Bool
  publish_rc_success : Bool
deriving DecidableEq

/-- `publish` (lines 180-204): inside the rate-limit window return with
no state change and nothing queued; when disconnected skip; on library
success advance `last_publish_time` to the attempt time; on a library
error leave it unchanged. -/
def publish (st : PublishState) (a : PublishAttempt) : PublishState × Bool :=
  let time_since_last := a.now - st.last_publish_time
  if time_since_last < a.rate_limit then (st, false)
  else if a.connected = false then (st, false)
  else if a.publish_rc_success then (⟨a.now⟩, true) else (st, false)

/-- The subsequence of attempts that actually published, over a whole
trace of calls. -/
def published_attempts (st : PublishState) : List PublishAttempt → List PublishAttempt
  | [] => []
  | a :: rest =>
    let r := publish st a
    (if r.2 then [a] else []) ++ published_attempts r.1 rest

/-! ## Claim C6: exponential reset backoff -/

/-- C6: the first reset is permitted immediately (no reset recorded yet);
after `reset_count` recorded resets a further reset is permitted iff at
least `min(initial_backoff * multiplier ^ reset_count, max_backoff)`
seconds have elapsed since the last recorded reset; `record_reset`
advances the count by one and stamps the reset time, so after `n`
recorded resets from a fresh state the count is `n`. -/
theorem C6_reset_backoff (p : BackoffParams) (st : ErrorRecoveryState) (now : ℚ) :
    (st.last_reset_time = none → should_reset_with_backoff p st now = true) ∧
    (∀ t, st.last_reset_time = some t →
      (should_reset_with_backoff p st now = true ↔
        backoff_delay p st.reset_count ≤ now - t)) ∧
    (record_reset st now).reset_count = st.reset_count + 1 ∧
    (record_reset st now).last_reset_time = some now ∧
    (∀ times : List ℚ,
      (times.foldl record_reset ⟨0, none⟩).reset_count = times.length) := by
  refine ⟨?_, ?_, rfl, rfl, ?_⟩
  · intro h
    simp [should_reset_with_backoff, h]
  · intro t ht
    simp only [should_reset_with_backoff, ht]
    split_ifs with h1
    · simp only [Bool.false_eq_true, false_iff]
      exact not_le.mpr h1
    · simp only [true_iff]
      exact not_lt.mp h1
  · intro times
    suffices h : ∀ (l : List ℚ) (st0 : ErrorRecoveryState),
        (l.foldl record_reset st0).reset_count = st0.reset_count + l.length by
      simpa using h times ⟨0, none⟩
    intro l
    induction l with
    | nil => intro st0; simp
    | cons a l ih =>
      intro st0
      simp only [List.foldl_cons, ih, record_reset, List.length_cons]
      omega

/-- C6 witness: with the default parameters, one recorded reset at time
100 and a query at time 102 the backoff window (2 s) has just elapsed, so
a reset is permitted; two recorded resets from a fresh state give count
2. -/
theorem C6_reset_backoff_witness :
    should_reset_with_backoff {} ⟨1, some 100⟩ 102 = true ∧
    (List.foldl record_reset ⟨0, none⟩ [5, 10]).reset_count = 2 := by
  constructor
  · exact ((C6_reset_backoff {} ⟨1, some 100⟩ 102).2.1 100 rfl).mpr
      (by norm_num [backoff_delay, min_def])
  · exact (C6_reset_backoff {} ⟨0, none⟩ 0).2.2.2.2 [5, 10]

/-! ## Claim C4: Distance packet without a valid Assignment -/

/-- C4 counterexample to the claim as stated: a Distance payload arriving
with no current assignment groups is routed through the error handler, so
the parsing-error counter IS incremented (from 0 to 1); the claim's
assertion that the counter is unchanged is false. -/
theorem C4_counterexample :
    parse_final_payload [] [1, 2] 0 0 = ⟨[], 1, false⟩ ∧ (1 : ℕ) ≠ 0 := by
  exact ⟨rfl, by decide⟩

/-- C4 amended: a Distance packet arriving when the current assignments
are invalid (not three groups, or some group empty) is skipped — no edges
are emitted and the parser mutates nothing else — but the error handler is
invoked, so the parsing-error counter is incremented by one (it does count
toward the reset threshold); the handler's reset verdict is ignored on
this path. -/
theorem C4_invalid_assignment_counts (assignments : List (List ℕ))
    (final_payload : List ℕ) (mode errorCount : ℕ)
    (hp : final_payload.length ≠ 0)
    (ha : assignments.length ≠ 3 ∨ ∃ g ∈ assignments, g.length = 0) :
    parse_final_payload assignments final_payload mode errorCount =
      ⟨[], errorCount + 1, false⟩ := by
  rcases ha with h | ⟨g, hg, hg0⟩
  · simp [parse_final_payload, hp, h]
  · have hnil : g = [] := List.length_eq_zero.mp hg0
    subst hnil
    by_cases h3 : assignments.length = 3
    · simp [parse_final_payload, hp, h3, hg]
    · simp [parse_final_payload, hp, h3]

/-- C4 witness: an empty first group with a non-empty payload yields no
edges and bumps the counter from 5 to 6, without requesting a reset. -/
theorem C4_invalid_assignment_counts_witness :
    parse_final_payload [[], [1], [2]] [1, 2] 0 5 = ⟨[], 6, false⟩ := by
  exact C4_invalid_assignment_counts [[], [1], [2]] [1, 2] 0 5 (by decide)
    (Or.inr ⟨[], by simp, rfl⟩)

/-! ## Claim C2: TWR value acceptance -/

/-- Computation of a minimal Distance parse: three singleton groups, the
first measurement carrying `v` and the remaining two carrying 1. -/
theorem parse_single_value (v : ℕ) (hv : v < 65536) :
    parse_final_payload [[1], [2], [3]]
        (encode_u16 v ++ encode_u16 1 ++ encode_u16 1) 0 0 =
      ⟨(if twr_value_ok v then [(1, 2, TWR_TO_METERS * v)] else []) ++
        [(1, 3, TWR_TO_METERS * 1), (2, 3, TWR_TO_METERS * 1)], 0, false⟩ := by
  have hval : v % 256 + 256 * (v / 256) = v := Nat.mod_add_div v 256
  have h1 : twr_value_ok 1 = true := by
    norm_num [twr_value_ok, TWR_TO_METERS, MAX_DISTANCE_METERS]
  simp only [parse_final_payload, encode_u16, cross_pairs, tri_pairs]
  norm_num [parse_pairs, read_u16, hval, h1]

/-- C2: for every unsigned 16-bit TWR value `v`, the value passes
`twr_value_ok` iff it is strictly positive and converts to strictly less
than 300 m; the parser emits the corresponding edge iff the value passes,
and a dropped value does not touch the error counter; at the boundary,
0 and 63961 (= ceil(300 / 0.004690384)) are dropped while 1 and
63960 (= floor(300 / 0.004690384)) are accepted. -/
theorem C2_twr_acceptance (v : ℕ) (hv : v < 65536) :
    (twr_value_ok v = true ↔ 0 < v ∧ TWR_TO_METERS * v < MAX_DISTANCE_METERS) ∧
    ((1, 2, TWR_TO_METERS * v) ∈
        (parse_final_payload [[1], [2], [3]]
          (encode_u16 v ++ encode_u16 1 ++ encode_u16 1) 0 0).results ↔
      twr_value_ok v = true) ∧
    (parse_final_payload [[1], [2], [3]]
        (encode_u16 v ++ encode_u16 1 ++ encode_u16 1) 0 0).errorCount = 0 ∧
    twr_value_ok 0 = false ∧ twr_value_ok 1 = true ∧
    twr_value_ok 63960 = true ∧ twr_value_ok 63961 = false := by
  have hb : twr_value_ok 0 = false ∧ twr_value_ok 1 = true ∧
      twr_value_ok 63960 = true ∧ twr_value_ok 63961 = false := by
    refine ⟨?_, ?_, ?_, ?_⟩ <;>
      norm_num [twr_value_ok, TWR_TO_METERS, MAX_DISTANCE_METERS]
  refine ⟨?_, ?_, ?_, hb.1, hb.2.1, hb.2.2.1, hb.2.2.2⟩
  · simp [twr_value_ok]
  · rw [parse_single_value v hv]
    by_cases h : twr_value_ok v = true
    · simp [h]
    · simp only [Bool.not_eq_true] at h
      simp [h]
  · rw [parse_single_value v hv]

/-- C2 witness: the TWR value 1066 (scenario A of the spec) is accepted
and its edge is emitted. -/
theorem C2_twr_acceptance_witness :
    (1, 2, TWR_TO_METERS * 1066) ∈
      (parse_final_payload [[1], [2], [3]]
        (encode_u16 1066 ++ encode_u16 1 ++ encode_u16 1) 0 0).results := by
  exact ((C2_twr_acceptance 1066 (by norm_num)).2.1).mpr
    (by norm_num [twr_value_ok, TWR_TO_METERS, MAX_DISTANCE_METERS])

/-! ## Claim C3: cache expiry on lookup -/

/-- Characterisation of `_is_data_valid` with the default parameters: a
record stamped `t` is valid at `now` iff it is neither a GPS-bearing
record older than the GPS TTL nor older than the sensor TTL. -/
theorem is_data_valid_default_iff (gps_ttl sensor_ttl : ℚ) (d : LoraData)
    (t now : ℚ) (ht : d.timestamp = some t) :
    is_data_valid gps_ttl sensor_ttl d none true now = true ↔
      ¬((has_gps_coords d = true ∧ now - t > gps_ttl) ∨ now - t > sensor_ttl) := by
  simp only [is_data_valid, ht, Bool.true_and, Option.getD_none]
  cases hg : has_gps_coords d
  · simp [not_lt]
  · simp only [if_true]
    split_ifs with h
    · simp [h]
    · simp [h, not_lt]

/-- C3: with the default parameters (no max-age override, GPS staleness
checked, TTLs 300 s and 600 s), a cached record stamped `t` is reported
not-found iff it is GPS-bearing and older than the GPS TTL, or older than
the sensor TTL; in particular a GPS-bearing record is returned at age
`300 - ε` and suppressed at age `300 + ε` for every `ε > 0`.  Following
the code, "GPS-bearing" means the location dict and both coordinates are
truthy (present and non-zero). -/
theorem C3_cache_expiry (uwb_cache : List (String × LoraData)) (uwb_id : String)
    (d : LoraData) (t now : ℚ)
    (hfind : (uwb_cache.find? (fun p => p.1 = uwb_id.toUpper)).map (·.2) = some d)
    (ht : d.timestamp = some t) :
    (get_by_uwb_id 300 600 uwb_cache uwb_id none true now = none ↔
      (has_gps_coords d = true ∧ now - t > 300) ∨ now - t > 600) ∧
    (has_gps_coords d = true → ∀ ε : ℚ, 0 < ε →
      get_by_uwb_id 300 600 uwb_cache uwb_id none true (t + 300 - ε) = some d ∧
      get_by_uwb_id 300 600 uwb_cache uwb_id none true (t + 300 + ε) = none) := by
  have hiff := fun now' => is_data_valid_default_iff 300 600 d t now' ht
  constructor
  · by_cases hv : is_data_valid 300 600 d none true now = true
    · simp only [get_by_uwb_id, hfind, hv, if_true]
      simp only [reduceCtorEq, false_iff]
      exact (hiff now).mp hv
    · have hv' : is_data_valid 300 600 d none true now = false :=
        Bool.not_eq_true _ ▸ eq_false_of_ne_true hv
      simp only [get_by_uwb_id, hfind, hv', Bool.false_eq_true, if_false, true_iff]
      by_contra hc
      exact hv ((hiff now).mpr hc)
  · intro hg ε hε
    constructor
    · have hv : is_data_valid 300 600 d none true (t + 300 - ε) = true := by
        refine (hiff _).mpr ?_
        rintro (⟨_, h⟩ | h) <;> linarith
      simp [get_by_uwb_id, hfind, hv]
    · have hv : is_data_valid 300 600 d none true (t + 300 + ε) ≠ true := by
        intro hv
        exact absurd (Or.inl ⟨hg, by linarith⟩) ((hiff _).mp hv)
      have hv' : is_data_valid 300 600 d none true (t + 300 + ε) = false :=
        eq_false_of_ne_true hv
      simp [get_by_uwb_id, hfind, hv']

/-- C3 witness: a GPS-bearing record stamped at 1000 is returned 100 s
before its GPS TTL boundary and suppressed 100 s after it. -/
theorem C3_cache_expiry_witness :
    get_by_uwb_id 300 600
        [("b98a".toUpper, ⟨some 1000, none, some ⟨some 51, some 7, none, none, none⟩, none⟩)]
        "b98a" none true 1200 =
      some ⟨some 1000, none, some ⟨some 51, some 7, none, none, none⟩, none⟩ ∧
    get_by_uwb_id 300 600
        [("b98a".toUpper, ⟨some 1000, none, some ⟨some 51, some 7, none, none, none⟩, none⟩)]
        "b98a" none true 1400 = none := by
  have h := (C3_cache_expiry
    [("b98a".toUpper, ⟨some 1000, none, some ⟨some 51, some 7, none, none, none⟩, none⟩)]
    "b98a" ⟨some 1000, none, some ⟨some 51, some 7, none, none, none⟩, none⟩
    1000 1200 (by simp) rfl).2 (by simp [has_gps_coords, truthyQ]) 100 (by norm_num)
  constructor
  · have := h.1
    norm_num at this ⊢
    exact this
  · have := h.2
    norm_num at this ⊢
    exact this

/-! ## Claim C5: health classification precedence -/

/-- The health classification as the amended claim words it: a
disconnected serial port yields `degraded` and takes precedence over every
unhealthy condition; with serial connected, the status is `unhealthy` iff
any unhealthy condition holds, else `degraded` on a low success rate, else
`healthy`. -/
def claimed_health_status (serial_connected mqtt_connected_now : Bool)
    (m : HealthMetrics) (uwb_data_timeout_seconds mqtt_connection_timeout_seconds : ℚ)
    (now : ℚ) : String :=
  let success_rate := success_rate_of m
  if serial_connected = false then "degraded"
  else if mqtt_connection_ok_check mqtt_connected_now m.last_mqtt_connected_time
      m.start_time mqtt_connection_timeout_seconds now = false ∨
    uwb_data_recent_check m.last_uwb_data_time uwb_data_timeout_seconds now = false ∨
    5 ≤ m.consecutive_errors ∨ 10 ≤ m.parsing_errors ∨
    (0 < m.parsing_errors ∧ success_rate < 0.8) then "unhealthy"
  else if success_rate < 0.8 then "degraded"
  else "healthy"

/-- C5 counterexample to the claim as stated: with the serial port
disconnected, MQTT currently connected, and five consecutive errors, the
code reports `degraded` — not `unhealthy` as the claim requires whenever
`consecutiveErrors >= 5` — because the serial check comes first in the
if/elif chain. -/
theorem C5_counterexample :
    get_health_status false true ⟨0, 0, 0, 0, 0, 0, none, none, 5⟩ 300 60 1000 =
        "degraded" ∧
    get_health_status false true ⟨0, 0, 0, 0, 0, 0, none, none, 5⟩ 300 60 1000 ≠
        "unhealthy" := by
  constructor <;> simp [get_health_status]

/-- C5 amended: `get_health_status` returns `degraded` whenever serial is
disconnected, regardless of the unhealthy conditions; with serial
connected it returns `unhealthy` iff MQTT has been down beyond its timeout
(after the 30 s startup grace), or UWB data is stale beyond its timeout,
or `consecutiveErrors >= 5`, or `parsingErrors >= 10`, or
(`parsingErrors > 0` and `successRate < 0.8`); else `degraded` iff
`successRate < 0.8`; else `healthy`. -/
theorem C5_health_status_amended (serial_connected mqtt_connected_now : Bool)
    (m : HealthMetrics)
    (uwb_data_timeout_seconds mqtt_connection_timeout_seconds now : ℚ) :
    get_health_status serial_connected mqtt_connected_now m
        uwb_data_timeout_seconds mqtt_connection_timeout_seconds now =
      claimed_health_status serial_connected mqtt_connected_now m
        uwb_data_timeout_seconds mqtt_connection_timeout_seconds now := by
  simp only [get_health_status, claimed_health_status]
  by_cases hp : 0 < m.parsing_errors
  · split_ifs <;> first | rfl | tauto
  · have h10 : ¬ 10 ≤ m.parsing_errors := by omega
    split_ifs <;> first | rfl | tauto

/-! ## Claim C7: publish rate limiting -/

/-- Helper: a skipped attempt leaves the publish state unchanged. -/
theorem publish_not_published_eq (st : PublishState) (a : PublishAttempt)
    (h : (publish st a).2 = false) : (publish st a).1 = st := by
  by_cases h1 : a.now - st.last_publish_time < a.rate_limit
  · simp [publish, h1]
  · by_cases h2 : a.connected = false
    · simp [publish, h1, h2]
    · by_cases h3 : a.publish_rc_success
      · simp [publish, h1, h2, h3] at h
      · simp [publish, h1, h2, h3]

/-- Helper: a successful publish implies the rate-limit window had
elapsed, and stamps the attempt time. -/
theorem publish_published_eq (st : PublishState) (a : PublishAttempt)
    (h : (publish st a).2 = true) :
    a.rate_limit ≤ a.now - st.last_publish_time ∧ (publish st a).1 = ⟨a.now⟩ := by
  by_cases h1 : a.now - st.last_publish_time < a.rate_limit
  · simp [publish, h1] at h
  · by_cases h2 : a.connected = false
    · simp [publish, h1, h2] at h
    · by_cases h3 : a.publish_rc_success
      · exact ⟨not_lt.mp h1, by simp [publish, h1, h2, h3]⟩
      · simp [publish, h1, h2, h3] at h

/-- Helper: the trace of successful publishes respects the rate limit read
at each publishing attempt, both between consecutive publishes and against
the initial `last_publish_time`. -/
theorem published_attempts_spec (st : PublishState) (l : List PublishAttempt) :
    (published_attempts st l).Chain' (fun a b => b.rate_limit ≤ b.now - a.now) ∧
    (∀ b, (published_attempts st l).head? = some b →
      b.rate_limit ≤ b.now - st.last_publish_time) := by
  induction l generalizing st with
  | nil => simp [published_attempts]
  | cons a rest ih =>
    by_cases h : (publish st a).2 = true
    · have hs := publish_published_eq st a h
      have hlist : published_attempts st (a :: rest) =
          a :: published_attempts ⟨a.now⟩ rest := by
        simp [published_attempts, h, hs.2]
      rw [hlist]
      obtain ⟨ihc, ihh⟩ := ih ⟨a.now⟩
      refine ⟨List.chain'_cons'.mpr ⟨fun b hb => ?_, ihc⟩, fun b hb => ?_⟩
      · simpa using ihh b hb
      · simp only [List.head?_cons, Option.some.injEq] at hb
        subst hb
        exact hs.1
    · have hfalse : (publish st a).2 = false := by
        simpa using h
      have hlist : published_attempts st (a :: rest) = published_attempts st rest := by
        simp [published_attempts, hfalse, publish_not_published_eq st a hfalse]
      rw [hlist]
      exact ih st

/-- C7: an attempt inside the rate-limit window (as read at the moment of
the attempt) returns with no publish and no state change (nothing is
queued); `last_publish_time` advances only on a successful publish; and
along any trace of attempts, every successful publish is separated from
the previous one (or from the initial `last_publish_time`) by at least the
rate limit in force at that attempt. -/
theorem C7_rate_limit :
    (∀ (st : PublishState) (a : PublishAttempt),
      a.now - st.last_publish_time < a.rate_limit → publish st a = (st, false)) ∧
    (∀ (st : PublishState) (a : PublishAttempt),
      (publish st a).2 = false → (publish st a).1 = st) ∧
    (∀ (st : PublishState) (l : List PublishAttempt),
      (published_attempts st l).Chain' (fun a b => b.rate_limit ≤ b.now - a.now) ∧
      (∀ b, (published_attempts st l).head? = some b →
        b.rate_limit ≤ b.now - st.last_publish_time)) := by
  refine ⟨?_, publish_not_published_eq, published_attempts_spec⟩
  intro st a h
  simp [publish, h]

/-- C7 witness: an attempt 5 s after a publish with a 10 s limit is
skipped unchanged, and a concrete three-attempt trace publishes only at
times 10 and 25, respecting the limit. -/
theorem C7_rate_limit_witness :
    publish ⟨100⟩ ⟨105, 10, true, true⟩ = (⟨100⟩, false) ∧
    (published_attempts ⟨0⟩
        [⟨10, 10, true, true⟩, ⟨15, 10, true, true⟩, ⟨25, 10, true, true⟩]).Chain'
      (fun a b => b.rate_limit ≤ b.now - a.now) := by
  exact ⟨C7_rate_limit.1 ⟨100⟩ ⟨105, 10, true, true⟩ (by norm_num),
    (C7_rate_limit.2.2 ⟨0⟩ _).1⟩

/-! ## Converter lemmas -/

/-- The built node carries the id it was built for, and its
`lastPositionUpdateTime` is exactly the value the shared timestamp
variable holds after the iteration. -/
theorem buildNode_fst_fields (anchor_map : AnchorMap) (cg : String → Option LoraData)
    (uwb_id : String) (ts : ℚ) :
    (buildNode anchor_map cg uwb_id ts).1.id = uwb_id ∧
    (buildNode anchor_map cg uwb_id ts).1.lastPositionUpdateTime =
      (buildNode anchor_map cg uwb_id ts).2 := by
  unfold buildNode
  cases hcg : cg uwb_id <;> simp [applyLoraMetadata]

/-- The timestamp threaded out of one iteration, as a function of whether
the node took its position from the cache. -/
theorem buildNode_snd (anchor_map : AnchorMap) (cg : String → Option LoraData)
    (uwb_id : String) (ts : ℚ) :
    (buildNode anchor_map cg uwb_id ts).2 =
      if takes_gps anchor_map cg uwb_id then lora_timestamp_update (cg uwb_id) ts
      else ts := by
  unfold buildNode takes_gps
  cases hcg : cg uwb_id <;> simp

/-- An iteration that does not overwrite the shared timestamp leaves it
unchanged. -/
theorem buildNode_snd_no_overwrite (anchor_map : AnchorMap)
    (cg : String → Option LoraData) (uwb_id : String) (ts : ℚ)
    (h : overwrites_ts anchor_map cg uwb_id = false) :
    (buildNode anchor_map cg uwb_id ts).2 = ts := by
  rw [buildNode_snd]
  by_cases hg : takes_gps anchor_map cg uwb_id
  · simp only [hg, if_true]
    unfold overwrites_ts at h
    rw [hg] at h
    simp only [Bool.true_and] at h
    cases hcg : cg uwb_id with
    | none => simp [lora_timestamp_update]
    | some d =>
      rw [hcg] at h
      simp only [Bool.or_eq_false_iff] at h
      rcases h with ⟨h1, h2⟩
      have h2' : d.receivedAtTs = none := by
        cases hr : d.receivedAtTs
        · rfl
        · rw [hr] at h2; simp at h2
      simp [lora_timestamp_update, h1, h2']
  · simp [hg]

/-- An iteration that takes its position from a record with a truthy
timestamp overwrites the shared timestamp with that record's stamp,
whatever it was before. -/
theorem buildNode_snd_gps (anchor_map : AnchorMap) (cg : String → Option LoraData)
    (uwb_id : String) (ts : ℚ) (d : LoraData) (t : ℚ)
    (hg : takes_gps anchor_map cg uwb_id = true) (hcg : cg uwb_id = some d)
    (ht : d.timestamp = some t) (ht0 : t ≠ 0) :
    (buildNode anchor_map cg uwb_id ts).2 = t := by
  rw [buildNode_snd]
  simp [hg, lora_timestamp_update, hcg, ht, truthyQ, ht0]

/-- A non-anchor node whose record fails the LoRa GPS guard keeps the
unknown position and does not touch the shared timestamp. -/
theorem buildNode_no_position (anchor_map : AnchorMap)
    (cg : String → Option LoraData) (uwb_id : String) (ts : ℚ)
    (ha : anchorLookup anchor_map uwb_id = none)
    (hng : lora_gps_used (cg uwb_id) = false) :
    (buildNode anchor_map cg uwb_id ts).1.positionKnown = false ∧
    (buildNode anchor_map cg uwb_id ts).1.latLonAlt = (0, 0, 0) ∧
    (buildNode anchor_map cg uwb_id ts).2 = ts := by
  unfold buildNode
  cases hcg : cg uwb_id <;> rw [hcg] at hng <;> simp [ha, hng, applyLoraMetadata]

theorem buildNodes_length (anchor_map : AnchorMap) (cg : String → Option LoraData)
    (ids : List String) (ts : ℚ) :
    (buildNodes anchor_map cg ids ts).length = ids.length := by
  induction ids generalizing ts with
  | nil => rfl
  | cons a rest ih => simp [buildNodes, ih]

theorem buildNodes_map_id (anchor_map : AnchorMap) (cg : String → Option LoraData)
    (ids : List String) (ts : ℚ) :
    (buildNodes anchor_map cg ids ts).map (·.id) = ids := by
  induction ids generalizing ts with
  | nil => rfl
  | cons a rest ih =>
    simp [buildNodes, ih, (buildNode_fst_fields anchor_map cg a ts).1]

theorem ts_after_append (anchor_map : AnchorMap) (cg : String → Option LoraData)
    (l1 l2 : List String) (ts : ℚ) :
    ts_after anchor_map cg (l1 ++ l2) ts =
      ts_after anchor_map cg l2 (ts_after anchor_map cg l1 ts) := by
  simp [ts_after, List.foldl_append]

theorem ts_after_no_overwrite (anchor_map : AnchorMap)
    (cg : String → Option LoraData) (l : List String) (ts : ℚ)
    (h : ∀ x ∈ l, overwrites_ts anchor_map cg x = false) :
    ts_after anchor_map cg l ts = ts := by
  induction l generalizing ts with
  | nil => rfl
  | cons a rest ih =>
    show ts_after anchor_map cg rest (buildNode anchor_map cg a ts).2 = ts
    rw [buildNode_snd_no_overwrite anchor_map cg a ts (h a (List.mem_cons_self a rest))]
    exact ih ts (fun x hx => h x (List.mem_cons_of_mem _ hx))

theorem buildNodes_getElem (anchor_map : AnchorMap) (cg : String → Option LoraData)
    (ids : List String) (ts : ℚ) (j : ℕ) (hj : j < ids.length)
    (hj2 : j < (buildNodes anchor_map cg ids ts).length) :
    (buildNodes anchor_map cg ids ts)[j] =
      (buildNode anchor_map cg ids[j]
        (ts_after anchor_map cg (ids.take j) ts)).1 := by
  induction ids generalizing ts j with
  | nil => simp at hj
  | cons a rest ih =>
    cases j with
    | zero => simp [buildNodes, ts_after]
    | succ k =>
      have hk : k < rest.length := by simpa using hj
      have hk2 : k < (buildNodes anchor_map cg rest (buildNode anchor_map cg a ts).2).length := by
        rw [buildNodes_length]; exact hk
      show (buildNodes anchor_map cg rest (buildNode anchor_map cg a ts).2)[k] = _
      rw [ih (buildNode anchor_map cg a ts).2 k hk hk2]
      simp [List.take_succ_cons, ts_after, List.foldl_cons]

/-! ## Claim C1: network edge symmetry -/

/-- An edge with a matching endpoint is appended to that node's edge
list. -/
theorem edges_for_mem (uwb_id : String) (edge_list : List (String × String × ℚ))
    (e : String × String × ℚ) (he : e ∈ edge_list)
    (hx : e.1 = uwb_id ∨ e.2.1 = uwb_id) :
    (⟨e.1, e.2.1, e.2.2⟩ : UwbEdgeObj) ∈ edges_for uwb_id edge_list := by
  induction edge_list with
  | nil => cases he
  | cons a rest ih =>
    rcases List.mem_cons.mp he with rfl | he2
    · rcases hx with h | h <;> simp [edges_for, h]
    · exact List.mem_append_right _ (ih he2)

/-- C1: for every well-formed input edge (two node ids and a distance),
both endpoints appear as nodes of the converted network, and the edge
object `(end0, end1, distance)` is a member of the edge list of every
node carrying either endpoint id — in particular of both endpoint
nodes. -/
theorem C1_network_symmetric (anchor_map : AnchorMap)
    (cg : String → Option LoraData) (timestamp : ℚ)
    (edge_list : List (String × String × ℚ)) (e : String × String × ℚ)
    (he : e ∈ edge_list) :
    (∃ n ∈ (convert_edges_to_network anchor_map cg edge_list timestamp).uwbs,
      n.id = e.1) ∧
    (∃ n ∈ (convert_edges_to_network anchor_map cg edge_list timestamp).uwbs,
      n.id = e.2.1) ∧
    (∀ n ∈ (convert_edges_to_network anchor_map cg edge_list timestamp).uwbs,
      n.id = e.1 ∨ n.id = e.2.1 →
        (⟨e.1, e.2.1, e.2.2⟩ : UwbEdgeObj) ∈ n.edges) := by
  have hmem : ∀ x : String, x ∈ sorted_uwb_ids edge_list →
      ∃ n ∈ (convert_edges_to_network anchor_map cg edge_list timestamp).uwbs,
        n.id = x := by
    intro x hx
    have hx2 : x ∈ (buildNodes anchor_map cg (sorted_uwb_ids edge_list)
        timestamp).map (·.id) := by
      rw [buildNodes_map_id]; exact hx
    obtain ⟨n', hn', hid⟩ := List.mem_map.mp hx2
    refine ⟨{ n' with edges := edges_for n'.id edge_list }, ?_, hid⟩
    simp only [convert_edges_to_network, List.mem_map]
    exact ⟨n', hn', rfl⟩
  have h1 : e.1 ∈ sorted_uwb_ids edge_list := by
    simp only [sorted_uwb_ids, List.mem_mergeSort, List.mem_dedup, List.mem_flatMap]
    exact ⟨e, he, by simp⟩
  have h2 : e.2.1 ∈ sorted_uwb_ids edge_list := by
    simp only [sorted_uwb_ids, List.mem_mergeSort, List.mem_dedup, List.mem_flatMap]
    exact ⟨e, he, by simp⟩
  refine ⟨hmem e.1 h1, hmem e.2.1 h2, ?_⟩
  intro n hn hend
  simp only [convert_edges_to_network, List.mem_map] at hn
  obtain ⟨n', _, rfl⟩ := hn
  refine edges_for_mem n'.id edge_list e he ?_
  simpa using hend.imp Eq.symm Eq.symm

/-! ## Claim C8: lastPositionUpdateTime from the cache record -/

/-- Within the node-building loop, a node that takes its position from a
cache record with a truthy timestamp gets that record's stamp as its
`lastPositionUpdateTime`, whatever the loop's incoming timestamp was. -/
theorem buildNodes_lastPos_of_gps (anchor_map : AnchorMap)
    (cg : String → Option LoraData) (ids : List String) (ts : ℚ)
    (n : UwbNode) (d : LoraData) (t : ℚ)
    (hn : n ∈ buildNodes anchor_map cg ids ts)
    (ha : anchorLookup anchor_map n.id = none) (hcg : cg n.id = some d)
    (hgps : has_gps_coords d = true) (ht : d.timestamp = some t) (ht0 : t ≠ 0) :
    n.lastPositionUpdateTime = t := by
  induction ids generalizing ts with
  | nil => cases hn
  | cons a rest ih =>
    rcases List.mem_cons.mp hn with rfl | hn2
    · have hid := (buildNode_fst_fields anchor_map cg a ts).1
      rw [hid] at ha hcg
      rw [(buildNode_fst_fields anchor_map cg a ts).2]
      refine buildNode_snd_gps anchor_map cg a ts d t ?_ hcg ht ht0
      simp [takes_gps, ha, lora_gps_used, hcg, hgps]
    · exact ih _ hn2

/-- C8: a node of the materialised network that is not an anchor and
whose position comes from a cache record carrying truthy latitude and
longitude (the record a non-expired `get_by_uwb_id` snapshot returned)
has `lastPositionUpdateTime` equal to that record's `"timestamp"` — the
cache's ingest wall-clock stamp, which is a positive Unix time — not the
wall-clock timestamp passed into the conversion. -/
theorem C8_lastPositionUpdateTime (anchor_map : AnchorMap)
    (cg : String → Option LoraData) (edge_list : List (String × String × ℚ))
    (timestamp : ℚ) (n : UwbNode) (d : LoraData) (t : ℚ)
    (hn : n ∈ (convert_edges_to_network anchor_map cg edge_list timestamp).uwbs)
    (ha : anchorLookup anchor_map n.id = none) (hcg : cg n.id = some d)
    (hgps : has_gps_coords d = true) (ht : d.timestamp = some t) (ht0 : t ≠ 0) :
    n.lastPositionUpdateTime = t := by
  simp only [convert_edges_to_network, List.mem_map] at hn
  obtain ⟨n', hn', rfl⟩ := hn
  exact buildNodes_lastPos_of_gps anchor_map cg (sorted_uwb_ids edge_list)
    timestamp n' d t hn' ha hcg hgps ht ht0

/-! ## Claim C10: zero coordinates treated as no GPS -/

/-- C10: a record whose location carries latitude exactly 0 or longitude
exactly 0 fails the shared GPS-presence test, so the GPS TTL is never
applied to it — its cache validity is exactly the sensor-TTL check — and
a non-anchor node holding it keeps `positionKnown = false`, the zero
`latLonAlt`, and does not disturb the shared timestamp. -/
theorem C10_zero_coordinate_no_gps (d : LoraData) (loc : LoraLocation)
    (hl : d.location = some loc)
    (hz : loc.latitude = some 0 ∨ loc.longitude = some 0) :
    has_gps_coords d = false ∧
    (∀ gps_ttl_a gps_ttl_b sensor_ttl : ℚ, ∀ max_age : Option ℚ, ∀ now : ℚ,
      is_data_valid gps_ttl_a sensor_ttl d max_age true now =
        is_data_valid gps_ttl_b sensor_ttl d max_age true now) ∧
    (∀ gps_ttl sensor_ttl now : ℚ,
      is_data_valid gps_ttl sensor_ttl d none true now =
        (d.timestamp.isSome && decide (now - d.timestamp.getD 0 ≤ sensor_ttl))) ∧
    (∀ (anchor_map : AnchorMap) (cg : String → Option LoraData)
        (uwb_id : String) (ts : ℚ),
      anchorLookup anchor_map uwb_id = none → cg uwb_id = some d →
        (buildNode anchor_map cg uwb_id ts).1.positionKnown = false ∧
        (buildNode anchor_map cg uwb_id ts).1.latLonAlt = (0, 0, 0) ∧
        (buildNode anchor_map cg uwb_id ts).2 = ts) := by
  have hgps : has_gps_coords d = false := by
    rcases hz with h | h <;> simp [has_gps_coords, hl, h, truthyQ]
  refine ⟨hgps, ?_, ?_, ?_⟩
  · intro ga gb s maxA now
    cases ht : d.timestamp <;> simp [is_data_valid, ht, hgps]
  · intro g s now
    cases ht : d.timestamp <;> simp [is_data_valid, ht, hgps]
  · intro anchor_map cg uwb_id ts ha hcg
    exact buildNode_no_position anchor_map cg uwb_id ts ha
      (by simp [lora_gps_used, hcg, hgps])

/-! ## Claim C9: timestamp leak across the conversion loop -/

/-- C9: in one conversion, once the node at sorted position `i` takes its
position from a cache record (with a truthy stamp `t`), the shared
timestamp variable is overwritten with `t`; every later node at position
`j` that is neither an anchor nor resolved from its own cache location —
with no further overwrite in between — receives `lastPositionUpdateTime
= t`, the earlier node's record timestamp, instead of the `timestamp`
argument supplied by the caller. -/
theorem C9_timestamp_leak (anchor_map : AnchorMap)
    (cg : String → Option LoraData) (edge_list : List (String × String × ℚ))
    (ts0 : ℚ) (ids : List String) (hids : ids = sorted_uwb_ids edge_list)
    (i j : ℕ) (hij : i < j) (hi : i < ids.length) (hj : j < ids.length)
    (di : LoraData) (t : ℚ)
    (htake : takes_gps anchor_map cg ids[i] = true)
    (hcgi : cg ids[i] = some di)
    (hdt : di.timestamp = some t) (ht0 : t ≠ 0)
    (hmid : ∀ (k : ℕ) (hk : k < ids.length), i < k → k < j →
      overwrites_ts anchor_map cg ids[k] = false)
    (hja : anchorLookup anchor_map ids[j] = none)
    (hjg : takes_gps anchor_map cg ids[j] = false)
    (hlen : j < (convert_edges_to_network anchor_map cg edge_list ts0).uwbs.length) :
    (convert_edges_to_network anchor_map cg edge_list ts0).uwbs[j].lastPositionUpdateTime
      = t := by
  have hlen2 : j < (buildNodes anchor_map cg ids ts0).length := by
    rw [buildNodes_length]; exact hj
  -- the j-th published node is the j-th built node with its edges filled in
  have hnode : (convert_edges_to_network anchor_map cg edge_list ts0).uwbs[j].lastPositionUpdateTime
      = (buildNodes anchor_map cg ids ts0)[j].lastPositionUpdateTime := by
    simp only [convert_edges_to_network, ← hids]
    rw [List.getElem_map]
  rw [hnode, buildNodes_getElem anchor_map cg ids ts0 j hj hlen2,
    (buildNode_fst_fields anchor_map cg ids[j] _).2, buildNode_snd]
  rw [if_neg (by simp [hjg])]
  -- the shared timestamp before position j is the record stamp from position i
  have hsplit : ids.take j = ids.take (i + 1) ++ (ids.drop (i + 1)).take (j - (i + 1)) := by
    rw [← List.take_add]
    congr 1
    omega
  have hstep : ts_after anchor_map cg (ids.take (i + 1)) ts0 = t := by
    have htake1 : ids.take (i + 1) = ids.take i ++ [ids[i]] := by
      rw [List.take_succ, List.getElem?_eq_getElem hi]
      rfl
    rw [htake1, ts_after_append]
    show (buildNode anchor_map cg ids[i]
      (ts_after anchor_map cg (ids.take i) ts0)).2 = t
    exact buildNode_snd_gps anchor_map cg ids[i] _ di t htake hcgi hdt ht0
  have hpreserve : ∀ x ∈ (ids.drop (i + 1)).take (j - (i + 1)),
      overwrites_ts anchor_map cg x = false := by
    intro x hx
    obtain ⟨m, hm, hxm⟩ := List.mem_iff_getElem.mp hx
    have hm2 : m < j - (i + 1) := by
      have := hm
      simp only [List.length_take, List.length_drop] at this
      omega
    have hval : ((ids.drop (i + 1)).take (j - (i + 1)))[m] = ids[i + 1 + m] := by
      rw [List.getElem_take, List.getElem_drop]
    have hk : i + 1 + m < ids.length := by
      have := hm
      simp only [List.length_take, List.length_drop] at this
      omega
    have := hmid (i + 1 + m) hk (by omega) (by omega)
    rw [← hxm, hval]
    exact this
  rw [hsplit, ts_after_append, hstep]
  exact ts_after_no_overwrite anchor_map cg _ t hpreserve

/-! ## Witnesses for the converter claims -/

/-- C1 witness: the single self-edge ("B","B",5) yields a network with a
node "B" whose edge list contains the edge object (twice, once per
endpoint, per the bidirectional population). -/
theorem C1_network_symmetric_witness :
    (∃ n ∈ (convert_edges_to_network [] (fun _ => none)
        [("B", "B", 5)] 100).uwbs, n.id = "B") ∧
    (∀ n ∈ (convert_edges_to_network [] (fun _ => none)
        [("B", "B", 5)] 100).uwbs,
      n.id = "B" ∨ n.id = "B" →
        (⟨"B", "B", 5⟩ : UwbEdgeObj) ∈ n.edges) := by
  have h := C1_network_symmetric [] (fun _ => none) 100 [("B", "B", 5)]
    ("B", "B", 5) (by simp)
  exact ⟨h.1, h.2.2⟩

/-- C8 witness: a non-anchor node "B" resolved from a cached record
stamped 500 is published with `lastPositionUpdateTime = 500`, not the
caller's timestamp 100. -/
theorem C8_lastPositionUpdateTime_witness :
    (convert_edges_to_network []
        (fun s => if s = "B"
          then some ⟨some 500, none, some ⟨some 51, some 7, none, none, none⟩, none⟩
          else none)
        [("B", "B", 5)] 100).uwbs =
      [⟨"B", 0, (51, 7, 0), true, 500, [⟨"B", "B", 5⟩, ⟨"B", "B", 5⟩],
        0, none, none, none⟩] ∧
    (⟨"B", 0, (51, 7, 0), true, 500, [⟨"B", "B", 5⟩, ⟨"B", "B", 5⟩],
        0, none, none, none⟩ : UwbNode).lastPositionUpdateTime = 500 := by
  have heq : (convert_edges_to_network []
      (fun s => if s = "B"
        then some ⟨some 500, none, some ⟨some 51, some 7, none, none, none⟩, none⟩
        else none)
      [("B", "B", 5)] 100).uwbs =
      [⟨"B", 0, (51, 7, 0), true, 500, [⟨"B", "B", 5⟩, ⟨"B", "B", 5⟩],
        0, none, none, none⟩] := by
    norm_num [convert_edges_to_network, sorted_uwb_ids, buildNodes, buildNode,
      applyLoraMetadata, edges_for, anchorLookup, lora_gps_used, has_gps_coords,
      truthyQ, lora_timestamp_update, lora_lat_lon_alt, pyOrInt]
  refine ⟨heq, ?_⟩
  refine C8_lastPositionUpdateTime []
    (fun s => if s = "B"
      then some ⟨some 500, none, some ⟨some 51, some 7, none, none, none⟩, none⟩
      else none)
    [("B", "B", 5)] 100 _
    ⟨some 500, none, some ⟨some 51, some 7, none, none, none⟩, none⟩ 500
    (by rw [heq]; simp) rfl (by simp) ?_ rfl (by norm_num)
  norm_num [has_gps_coords, truthyQ]

/-- C9 witness: node "A" (sorted first) resolves from a record stamped
500; node "B" is neither an anchor nor cache-resolved, yet is published
with `lastPositionUpdateTime = 500` instead of the caller's 100. -/
theorem C9_timestamp_leak_witness :
    ((convert_edges_to_network []
        (fun s => if s = "A"
          then some ⟨some 500, none, some ⟨some 51, some 7, none, none, none⟩, none⟩
          else none)
        [("A", "B", 5)] 100).uwbs[1]?).map (·.lastPositionUpdateTime) =
      some 500 := by
  have hids : ["A", "B"] = sorted_uwb_ids [("A", "B", 5)] := by
    have hAB : (fun a b : String => decide (a ≤ b)) "A" "B" = true := by
      simp only [decide_eq_true_eq]
      rw [String.le_iff_toList_le]
      simp [String.toList]
      decide
    have hsorted : List.Pairwise
        (fun a b : String => (fun a b : String => decide (a ≤ b)) a b = true)
        ["A", "B"] := by
      refine List.Pairwise.cons (fun b hb => ?_)
        (List.Pairwise.cons (fun c hc => absurd hc (List.not_mem_nil c))
          List.Pairwise.nil)
      rw [List.mem_singleton] at hb
      subst hb
      exact hAB
    have hdedup : ([("A", "B", 5)].flatMap
        (fun e : String × String × ℚ => [e.1, e.2.1])).dedup = ["A", "B"] := by
      simp
    rw [sorted_uwb_ids, hdedup, List.mergeSort_of_sorted hsorted]
  have hlen : 1 < (convert_edges_to_network []
      (fun s => if s = "A"
        then some ⟨some 500, none, some ⟨some 51, some 7, none, none, none⟩, none⟩
        else none)
      [("A", "B", 5)] 100).uwbs.length := by
    have h2 : (convert_edges_to_network []
        (fun s => if s = "A"
          then some ⟨some 500, none, some ⟨some 51, some 7, none, none, none⟩, none⟩
          else none)
        [("A", "B", 5)] 100).uwbs.length =
        (sorted_uwb_ids [("A", "B", 5)]).length := by
      simp [convert_edges_to_network, buildNodes_length]
    rw [h2, ← hids]
    norm_num
  have hmain := C9_timestamp_leak []
    (fun s => if s = "A"
      then some ⟨some 500, none, some ⟨some 51, some 7, none, none, none⟩, none⟩
      else none)
    [("A", "B", 5)] 100 ["A", "B"] hids 0 1 (by omega) (by simp) (by simp)
    ⟨some 500, none, some ⟨some 51, some 7, none, none, none⟩, none⟩ 500
    (by norm_num [takes_gps, anchorLookup, lora_gps_used, has_gps_coords, truthyQ])
    (by simp) rfl (by norm_num)
    (fun k hk h1 h2 => absurd (lt_trans h1 h2) (by omega))
    (by simp [anchorLookup]) (by simp [takes_gps, lora_gps_used]) hlen
  rw [List.getElem?_eq_getElem hlen]
  simpa using hmain

/-- C10 witness: a record at latitude exactly 0 fails the GPS test, stays
valid at age 300 even with a 1 s GPS TTL (only the sensor TTL applies),
and a non-anchor node holding it keeps the unknown position. -/
theorem C10_zero_coordinate_no_gps_witness :
    has_gps_coords ⟨some 100, none, some ⟨some 0, some 7, none, none, none⟩, none⟩
        = false ∧
    is_data_valid 1 600 ⟨some 100, none, some ⟨some 0, some 7, none, none, none⟩, none⟩
        none true 400 = true ∧
    (buildNode [] (fun _ => some ⟨some 100, none,
        some ⟨some 0, some 7, none, none, none⟩, none⟩) "B" 100).1.positionKnown
      = false := by
  have h := C10_zero_coordinate_no_gps
    ⟨some 100, none, some ⟨some 0, some 7, none, none, none⟩, none⟩
    ⟨some 0, some 7, none, none, none⟩ rfl (Or.inl rfl)
  refine ⟨h.1, ?_, (h.2.2.2 [] (fun _ => some ⟨some 100, none,
    some ⟨some 0, some 7, none, none, none⟩, none⟩) "B" 100 rfl rfl).1⟩
  rw [h.2.2.1 1 600 400]
  norm_num

end UwbMqttPublisher
